import Mathlib

/-!
# Verification of the websocket connection handler (`src/backend/websocket.rs`)

A shallow embedding of the per-connection request/response protocol handler.
The handler decodes inbound binary messages into `Request` values, dispatches
by variant (credential login, token-renewal login, logout), consults the
external Token Service and Session Store collaborators, and sends back one
encoded `Response`.

The collaborators (Token Service, Session Store) live outside this core; they
are modelled as an environment (`Collab`) of pure reply functions, and every
call the handler makes to them is recorded in an explicit trace
(`List CollabCall`), so that frame properties ("no store call was made") are
statable.  The wire codec (`serde_cbor` packed encoding of the protocol
crate's types) is also outside `src/`; it is modelled from the spec as a
concrete self-describing compact binary (CBOR-style) encoding.
-/

instance {ε α : Type} [DecidableEq ε] [DecidableEq α] : DecidableEq (Except ε α) := fun a b =>
  match a, b with
  | .ok x, .ok y =>
    if h : x = y then .isTrue (by rw [h]) else .isFalse (fun hh => h (Except.ok.inj hh))
  | .error x, .error y =>
    if h : x = y then .isTrue (by rw [h]) else .isFalse (fun hh => h (Except.error.inj hh))
  | .ok _, .error _ => .isFalse (fun hh => Except.noConfusion hh)
  | .error _, .ok _ => .isFalse (fun hh => Except.noConfusion hh)

/-- A session record.  In the protocol crate a `Session` carries only its
opaque `token` string; the handler never touches any other field. -/
structure Session where
  token : String
deriving DecidableEq, Repr

/-- Modelled from the spec: the login payload of the protocol crate
(`Login::Credentials` with username and password, or `Login::Session` for
token renewal), which is not under `src/`. -/
inductive Login where
  | credentials (username password : String)
  | session (s : Session)
deriving DecidableEq, Repr

/-- Modelled from the spec: the request union of the protocol crate
(`Request::Login` or `Request::Logout`), which is not under `src/`. -/
inductive Request where
  | login (l : Login)
  | logout (s : Session)
deriving DecidableEq, Repr

/-- Modelled from the spec: the wire-visible error taxonomy
(`ResponseError`), which is not under `src/`.  The spec names
`WrongUsernamePassword`, `Database` and a token-related error. -/
inductive ResponseError where
  | wrongUsernamePassword
  | database
  | tokenInvalid
deriving DecidableEq, Repr

/-- Modelled from the spec: the response union mirroring `Request`
(`Response::Login` holding `Result<Session, ResponseError>`, or
`Response::Logout` holding `Result<(), ResponseError>`). -/
inductive Response where
  | login (r : Except ResponseError Session)
  | logout (r : Except ResponseError Unit)
deriving DecidableEq, Repr

/-- An opaque failure of the Token Service (`Token::create` / `Token::verify`
failing: malformed, expired, or integrity-check failure). -/
inductive TokenError where
  | invalid
deriving DecidableEq, Repr

/-- A failure of a Session Store call: either the actor mailbox / transport
failed (the `.wait()` layer, mapped by `map_err` in the source) or the store
itself returned an error (no such session, transient unavailability, ...). -/
inductive StoreError where
  | mailbox
  | storeFailure
deriving DecidableEq, Repr

/-- Modelled from the spec: the `From` conversion applied by the `?`
operator to Token Service errors ("Wrap token-issuance errors into a
token-related error"); the conversion lives in the protocol/token code, not
under `src/`. -/
def tokenErrorToResponseError : TokenError → ResponseError
  | .invalid => .tokenInvalid

/-- One call made by the handler to an external collaborator, in the order
issued.  `createSession`, `updateSession` and `deleteSession` mirror the
`CreateSession`, `UpdateSession` and `DeleteSession` messages sent to the
database executor; `tokenCreate` and `tokenVerify` mirror `Token::create`
and `Token::verify`. -/
inductive CollabCall where
  | tokenCreate (username : String)
  | tokenVerify (token : String)
  | createSession (token : String)
  | updateSession (oldToken newToken : String)
  | deleteSession (token : String)
deriving DecidableEq, Repr

/-- Whether a collaborator call is a message to the Session Store (as
opposed to a Token Service call). -/
def CollabCall.isStoreCall : CollabCall → Bool
  | .createSession _ => true
  | .updateSession _ _ => true
  | .deleteSession _ => true
  | .tokenCreate _ => false
  | .tokenVerify _ => false

/-- The environment of external collaborators for one request: the replies
the Token Service and the Session Store would give to each possible call.
The handler is parametric in it, matching the spec's interface boundary
(`issue`, `verify_and_renew`; `create`, `update`, `delete`). -/
structure Collab where
  tokenCreate : String → Except TokenError String
  tokenVerify : String → Except TokenError String
  createSession : String → Except StoreError Session
  updateSession : String → String → Except StoreError Session
  deleteSession : String → Except StoreError Unit

/-! ## The wire codec

Modelled from the spec: the Protocol Codec (`serde_cbor`, `to_vec_packed` /
`from_slice` over the protocol crate's derived `Serialize` / `Deserialize`
impls) is not under `src/`.  It is modelled as a concrete, deterministic,
self-describing compact binary encoding in CBOR style: enum newtype and
struct variants become one-entry maps keyed by the variant index (the packed
format uses indices, not names), structs become maps keyed by field index,
unit variants become bare unsigned integers, `()` becomes null (0xF6 = 246),
and strings become UTF-8 text strings (major type 3) with a length header.
Bytes are modelled as natural numbers below 256. -/

/-- UTF-8 encoding of one scalar value (a `Char`), 1 to 4 bytes. -/
def utf8EncodeChar (c : Char) : List Nat :=
  let n := c.toNat
  if n < 128 then [n]
  else if n < 2048 then [192 + n / 64, 128 + n % 64]
  else if n < 65536 then [224 + n / 4096, 128 + n / 64 % 64, 128 + n % 64]
  else [240 + n / 262144, 128 + n / 4096 % 64, 128 + n / 64 % 64, 128 + n % 64]

/-- UTF-8 encoding of a character sequence. -/
def utf8Encode : List Char → List Nat
  | [] => []
  | c :: cs => utf8EncodeChar c ++ utf8Encode cs

/-- Decode one UTF-8 scalar value from the front of a byte sequence: the
decoded code point and the remaining bytes.  (Lenient on ill-formed input,
which never arises on encoder output.) -/
def utf8DecodeStep : List Nat → Option (Nat × List Nat)
  | [] => none
  | b :: rest =>
    if b < 128 then some (b, rest)
    else if b < 224 then
      match rest with
      | b1 :: rest1 => some ((b - 192) * 64 + (b1 - 128), rest1)
      | [] => none
    else if b < 240 then
      match rest with
      | b1 :: b2 :: rest2 => some ((b - 224) * 4096 + (b1 - 128) * 64 + (b2 - 128), rest2)
      | _ => none
    else
      match rest with
      | b1 :: b2 :: b3 :: rest3 =>
        some ((b - 240) * 262144 + (b1 - 128) * 4096 + (b2 - 128) * 64 + (b3 - 128), rest3)
      | _ => none

/-- UTF-8 decoding of a byte sequence, fuelled by the number of scalar
values still allowed (each scalar value consumes at least one byte, so the
byte count is always enough fuel). -/
def utf8DecodeAux : Nat → List Nat → Option (List Char)
  | _, [] => some []
  | 0, _ :: _ => none
  | fuel + 1, b :: rest =>
    match utf8DecodeStep (b :: rest) with
    | none => none
    | some (n, rest1) => (utf8DecodeAux fuel rest1).map (fun cs => Char.ofNat n :: cs)

/-- UTF-8 decoding of a whole byte sequence back to characters. -/
def utf8Decode (l : List Nat) : Option (List Char) :=
  utf8DecodeAux l.length l

/-- A CBOR item header: major type (0..7) in the three top bits, and the
unsigned argument in the minimal following form (inline below 24, then 1, 2,
4 or 8 extra bytes). -/
def cborHeader (major n : Nat) : List Nat :=
  if n < 24 then [major * 32 + n]
  else if n < 256 then [major * 32 + 24, n]
  else if n < 65536 then [major * 32 + 25, n / 256, n % 256]
  else if n < 4294967296 then
    [major * 32 + 26, n / 16777216 % 256, n / 65536 % 256, n / 256 % 256, n % 256]
  else
    [major * 32 + 27,
      n / 72057594037927936 % 256, n / 281474976710656 % 256, n / 1099511627776 % 256,
      n / 4294967296 % 256, n / 16777216 % 256, n / 65536 % 256, n / 256 % 256, n % 256]

/-- Read back a CBOR item header: the major type, the unsigned argument and
the remaining bytes. -/
def cborReadHeader : List Nat → Option (Nat × Nat × List Nat)
  | [] => none
  | b :: rest =>
    let major := b / 32
    let ai := b % 32
    if ai < 24 then some (major, ai, rest)
    else if ai = 24 then
      match rest with
      | x :: r => some (major, x, r)
      | [] => none
    else if ai = 25 then
      match rest with
      | x1 :: x2 :: r => some (major, x1 * 256 + x2, r)
      | _ => none
    else if ai = 26 then
      match rest with
      | x1 :: x2 :: x3 :: x4 :: r =>
        some (major, ((x1 * 256 + x2) * 256 + x3) * 256 + x4, r)
      | _ => none
    else if ai = 27 then
      match rest with
      | x1 :: x2 :: x3 :: x4 :: x5 :: x6 :: x7 :: x8 :: r =>
        some (major,
          ((((((x1 * 256 + x2) * 256 + x3) * 256 + x4) * 256 + x5) * 256 + x6) * 256 + x7)
            * 256 + x8, r)
      | _ => none
    else none

/-- A CBOR text string: major type 3 with the UTF-8 byte length, then the
UTF-8 bytes. -/
def cborEncodeString (s : String) : List Nat :=
  cborHeader 3 (utf8Encode s.data).length ++ utf8Encode s.data

/-- Read back a CBOR text string, returning it with the remaining bytes. -/
def cborDecodeString (l : List Nat) : Option (String × List Nat) :=
  match cborReadHeader l with
  | some (major, len, rest) =>
    if major = 3 then
      if len ≤ rest.length then
        match utf8Decode (rest.take len) with
        | some cs => some (String.mk cs, rest.drop len)
        | none => none
      else none
    else none
  | none => none

/-- A `Session` on the wire: a packed struct, the one-entry map from field
index 0 to the token string (0xA1 = map of one entry). -/
def encodeSession (s : Session) : List Nat :=
  161 :: 0 :: cborEncodeString s.token

/-- Read back a `Session`. -/
def decodeSession : List Nat → Option (Session × List Nat)
  | 161 :: 0 :: rest =>
    match cborDecodeString rest with
    | some (t, r) => some (⟨t⟩, r)
    | none => none
  | _ => none

/-- A `ResponseError` on the wire: a unit variant, the bare variant index. -/
def encodeResponseError : ResponseError → List Nat
  | .wrongUsernamePassword => [0]
  | .database => [1]
  | .tokenInvalid => [2]

/-- Read back a `ResponseError`. -/
def decodeResponseError : List Nat → Option (ResponseError × List Nat)
  | 0 :: rest => some (.wrongUsernamePassword, rest)
  | 1 :: rest => some (.database, rest)
  | 2 :: rest => some (.tokenInvalid, rest)
  | _ => none

/-- A `Result<Session, ResponseError>` on the wire: newtype variant `Ok` is
index 0, `Err` is index 1, each a one-entry map. -/
def encodeResultSession : Except ResponseError Session → List Nat
  | .ok s => 161 :: 0 :: encodeSession s
  | .error e => 161 :: 1 :: encodeResponseError e

/-- Read back a `Result<Session, ResponseError>`. -/
def decodeResultSession : List Nat → Option (Except ResponseError Session × List Nat)
  | 161 :: 0 :: rest => (decodeSession rest).map (fun p => (.ok p.fst, p.snd))
  | 161 :: 1 :: rest => (decodeResponseError rest).map (fun p => (.error p.fst, p.snd))
  | _ => none

/-- A `Result<(), ResponseError>` on the wire; `()` is null (246). -/
def encodeResultUnit : Except ResponseError Unit → List Nat
  | .ok _ => [161, 0, 246]
  | .error e => 161 :: 1 :: encodeResponseError e

/-- Read back a `Result<(), ResponseError>`. -/
def decodeResultUnit : List Nat → Option (Except ResponseError Unit × List Nat)
  | 161 :: 0 :: 246 :: rest => some (.ok (), rest)
  | 161 :: 1 :: rest => (decodeResponseError rest).map (fun p => (.error p.fst, p.snd))
  | _ => none

/-- A `Response` on the wire: newtype variant `Login` is index 0, `Logout`
index 1.  This is the `to_vec_packed` serialization of the send path. -/
def encodeResponse : Response → List Nat
  | .login r => 161 :: 0 :: encodeResultSession r
  | .logout r => 161 :: 1 :: encodeResultUnit r

/-- Read back a `Response` and the remaining bytes. -/
def decodeResponseAux : List Nat → Option (Response × List Nat)
  | 161 :: 0 :: rest => (decodeResultSession rest).map (fun p => (.login p.fst, p.snd))
  | 161 :: 1 :: rest => (decodeResultUnit rest).map (fun p => (.logout p.fst, p.snd))
  | _ => none

/-- The `from_slice` deserialization of a `Response`: the whole input must be
consumed (serde rejects trailing bytes). -/
def decodeResponse (l : List Nat) : Option Response :=
  match decodeResponseAux l with
  | some (r, []) => some r
  | _ => none

/-- A `Login` payload on the wire: `Credentials` is a struct variant (a
one-entry map from variant index 0 to the two-field map), `Session` a
newtype variant at index 1. -/
def encodeLogin : Login → List Nat
  | .credentials u p =>
    161 :: 0 :: 162 :: 0 :: (cborEncodeString u ++ 1 :: cborEncodeString p)
  | .session s => 161 :: 1 :: encodeSession s

/-- Read back a `Login` payload. -/
def decodeLogin : List Nat → Option (Login × List Nat)
  | 161 :: 0 :: 162 :: 0 :: rest =>
    match cborDecodeString rest with
    | some (u, r1) =>
      match r1 with
      | 1 :: r2 =>
        match cborDecodeString r2 with
        | some (p, r3) => some (.credentials u p, r3)
        | none => none
      | _ => none
    | none => none
  | 161 :: 1 :: rest => (decodeSession rest).map (fun p => (.session p.fst, p.snd))
  | _ => none

/-- A `Request` on the wire: newtype variant `Login` is index 0, `Logout`
index 1. -/
def encodeRequest : Request → List Nat
  | .login l => 161 :: 0 :: encodeLogin l
  | .logout s => 161 :: 1 :: encodeSession s

/-- Read back a `Request` and the remaining bytes. -/
def decodeRequestAux : List Nat → Option (Request × List Nat)
  | 161 :: 0 :: rest => (decodeLogin rest).map (fun p => (.login p.fst, p.snd))
  | 161 :: 1 :: rest => (decodeSession rest).map (fun p => (.logout p.fst, p.snd))
  | _ => none

/-- The `from_slice` deserialization of a `Request` (the decode step of
`WebSocket::handle_request`): the whole input must be consumed. -/
def decodeRequest (l : List Nat) : Option Request :=
  match decodeRequestAux l with
  | some (r, []) => some r
  | _ => none

/-- A string is representable on the wire when its UTF-8 byte length fits in
the 8-byte CBOR length header (always true of a machine-resident string,
whose length is a `usize`). -/
def stringWireOk (s : String) : Prop :=
  (utf8Encode s.data).length < 18446744073709551616

instance (s : String) : Decidable (stringWireOk s) := by
  unfold stringWireOk; infer_instance

/-- Every string carried by the response fits in its CBOR length header. -/
def Response.wireOk : Response → Prop
  | .login (.ok s) => stringWireOk s.token
  | _ => True

instance (r : Response) : Decidable r.wireOk := by
  unfold Response.wireOk; rcases r with r | r
  · rcases r with s | e <;> infer_instance
  · infer_instance

namespace WebSocket

/-- Embedding of `WebSocket::handle_request_login_credentials`.  Rejects the
request locally when the username is empty, the password is empty, or the
two differ; otherwise asks the Token Service for a token for `username` and,
on success, sends `CreateSession` to the Session Store.  Store failures (the
mailbox layer and the store-level layer alike) become
`ResponseError.database`; token failures become a token-related error.
Returns the result together with the trace of collaborator calls issued. -/
def handle_request_login_credentials (env : Collab) (username password : String) :
    Except ResponseError Session × List CollabCall :=
  if username.isEmpty || password.isEmpty || username ≠ password then
    (.error .wrongUsernamePassword, [])
  else
    match env.tokenCreate username with
    | .error e => (.error (tokenErrorToResponseError e), [.tokenCreate username])
    | .ok tok =>
      match env.createSession tok with
      | .error _ =>
        (.error .database, [.tokenCreate username, .createSession tok])
      | .ok session =>
        (.ok session, [.tokenCreate username, .createSession tok])

/-- Embedding of `WebSocket::handle_request_login_token`.  Asks the Token
Service to verify-and-renew `session.token`; on success sends
`UpdateSession` with the old token and the renewed token to the Session
Store.  Store failures become `ResponseError.database`. -/
def handle_request_login_token (env : Collab) (session : Session) :
    Except ResponseError Session × List CollabCall :=
  match env.tokenVerify session.token with
  | .error e => (.error (tokenErrorToResponseError e), [.tokenVerify session.token])
  | .ok newToken =>
    match env.updateSession session.token newToken with
    | .error _ =>
      (.error .database,
        [.tokenVerify session.token, .updateSession session.token newToken])
    | .ok newSession =>
      (.ok newSession,
        [.tokenVerify session.token, .updateSession session.token newToken])

/-- Embedding of `WebSocket::handle_request_logout`.  Sends `DeleteSession`
with the session's token to the Session Store; any store failure becomes
`ResponseError.database`. -/
def handle_request_logout (env : Collab) (session : Session) :
    Except ResponseError Unit × List CollabCall :=
  match env.deleteSession session.token with
  | .error _ => (.error .database, [.deleteSession session.token])
  | .ok _ => (.ok (), [.deleteSession session.token])

/-- The dispatch of `WebSocket::handle_request` after a successful decode:
match on the request variant and wrap the sub-handler's result in the
matching response variant. -/
def dispatch (env : Collab) (request : Request) : Response × List CollabCall :=
  match request with
  | .login login =>
    match login with
    | .credentials u p =>
      let (r, calls) := handle_request_login_credentials env u p
      (.login r, calls)
    | .session s =>
      let (r, calls) := handle_request_login_token env s
      (.login r, calls)
  | .logout s =>
    let (r, calls) := handle_request_logout env s
    (.logout r, calls)

/-- Embedding of the decode step plus dispatch of `WebSocket::handle_request`:
`none` is the early `Err` return of the `?` after `from_slice` fails (the
caller only logs it; no response is sent), otherwise the response that is
sent with the collaborator calls made. -/
def handle_request (env : Collab) (data : List Nat) :
    Option (Response × List CollabCall) :=
  match decodeRequest data with
  | none => none
  | some request => some (dispatch env request)

end WebSocket

/-- One inbound transport event, as matched by `StreamHandler::handle`: a
binary frame, a close frame, or any other message kind (text, ping, ...,
the catch-all arm). -/
inductive InMessage where
  | binary (data : List Nat)
  | close
  | other
deriving DecidableEq, Repr

namespace WebSocket

/-- Embedding of `StreamHandler::handle`: the responses sent on the
connection, the collaborator calls made, and whether the connection was
stopped (`context.stop()`).  A failed decode only logs a warning; a close
frame stops the context without a response; any other message kind is
logged and ignored. -/
def handle (env : Collab) (msg : InMessage) :
    List Response × List CollabCall × Bool :=
  match msg with
  | .binary data =>
    match handle_request env data with
    | none => ([], [], false)
    | some (response, calls) => ([response], calls, false)
  | .close => ([], [], true)
  | .other => ([], [], false)

/-- The connection's message loop: inbound messages are processed to
completion in order, until the connection is stopped; collects every
response sent on the connection. -/
def run (env : Collab) : List InMessage → List Response
  | [] => []
  | m :: rest =>
    match handle env m with
    | (rs, _, stop) => if stop then rs else rs ++ run env rest

end WebSocket

/-- The response's outer variant (Login vs Logout) matches the request's
outer variant. -/
def outerVariantMatches : Request → Response → Prop
  | .login _, .login _ => True
  | .logout _, .logout _ => True
  | .login _, .logout _ => False
  | .logout _, .login _ => False

/-- A fully working collaborator environment: token issuance, verification
and every store call succeed.  Used to exercise theorems on concrete
inputs. -/
def envOk : Collab where
  tokenCreate := fun u => .ok (String.append "tok-" u)
  tokenVerify := fun t => .ok (String.append t "-renewed")
  createSession := fun t => .ok ⟨t⟩
  updateSession := fun _ n => .ok ⟨n⟩
  deleteSession := fun _ => .ok ()

/-- A collaborator environment whose Session Store fails every call. -/
def envStoreDown : Collab where
  tokenCreate := fun u => .ok (String.append "tok-" u)
  tokenVerify := fun t => .ok (String.append t "-renewed")
  createSession := fun _ => .error .storeFailure
  updateSession := fun _ _ => .error .mailbox
  deleteSession := fun _ => .error .storeFailure

/-- A collaborator environment whose Token Service rejects every request. -/
def envTokenDown : Collab where
  tokenCreate := fun _ => .error .invalid
  tokenVerify := fun _ => .error .invalid
  createSession := fun t => .ok ⟨t⟩
  updateSession := fun _ n => .ok ⟨n⟩
  deleteSession := fun _ => .ok ()

/-! ## Round-trip lemmas for the codec -/


theorem char_toNat_lt (c : Char) : c.toNat < 1114112 := by
  have h := c.valid
  show c.val.toNat < 1114112
  rcases h with h | ⟨h1, h2⟩
  · have : c.val.toNat < 55296 := h
    omega
  · have : c.val.toNat < 1114112 := h2
    omega

theorem utf8DecodeStep_utf8EncodeChar (c : Char) (t : List Nat) :
    utf8DecodeStep (utf8EncodeChar c ++ t) = some (c.toNat, t) := by
  have hlt := char_toNat_lt c
  unfold utf8EncodeChar
  by_cases h1 : c.toNat < 128
  · simp only [if_pos h1, List.cons_append, List.nil_append, utf8DecodeStep]
  · by_cases h2 : c.toNat < 2048
    · have e1 : ¬ (192 + c.toNat / 64 < 128) := by omega
      have e2 : 192 + c.toNat / 64 < 224 := by omega
      simp only [if_neg h1, if_pos h2, List.cons_append, List.nil_append, utf8DecodeStep,
        if_neg e1, if_pos e2]
      have harg : (192 + c.toNat / 64 - 192) * 64 + (128 + c.toNat % 64 - 128) = c.toNat := by
        omega
      rw [harg]
    · by_cases h3 : c.toNat < 65536
      · have e1 : ¬ (224 + c.toNat / 4096 < 128) := by omega
        have e2 : ¬ (224 + c.toNat / 4096 < 224) := by omega
        have e3 : 224 + c.toNat / 4096 < 240 := by omega
        simp only [if_neg h1, if_neg h2, if_pos h3, List.cons_append, List.nil_append,
          utf8DecodeStep, if_neg e1, if_neg e2, if_pos e3]
        have harg : (224 + c.toNat / 4096 - 224) * 4096 + (128 + c.toNat / 64 % 64 - 128) * 64 +
            (128 + c.toNat % 64 - 128) = c.toNat := by omega
        rw [harg]
      · have e1 : ¬ (240 + c.toNat / 262144 < 128) := by omega
        have e2 : ¬ (240 + c.toNat / 262144 < 224) := by omega
        have e3 : ¬ (240 + c.toNat / 262144 < 240) := by omega
        simp only [if_neg h1, if_neg h2, if_neg h3, List.cons_append, List.nil_append,
          utf8DecodeStep, if_neg e1, if_neg e2, if_neg e3]
        have harg : (240 + c.toNat / 262144 - 240) * 262144 +
            (128 + c.toNat / 4096 % 64 - 128) * 4096 +
            (128 + c.toNat / 64 % 64 - 128) * 64 + (128 + c.toNat % 64 - 128) = c.toNat := by
          omega
        rw [harg]

theorem utf8EncodeChar_ne_nil (c : Char) : utf8EncodeChar c ≠ [] := by
  unfold utf8EncodeChar
  by_cases h1 : c.toNat < 128
  · simp [h1]
  · by_cases h2 : c.toNat < 2048
    · simp [h1, h2]
    · by_cases h3 : c.toNat < 65536
      · simp [h1, h2, h3]
      · simp [h1, h2, h3]

theorem utf8DecodeAux_utf8EncodeChar (fuel : Nat) (c : Char) (t : List Nat) :
    utf8DecodeAux (fuel + 1) (utf8EncodeChar c ++ t) =
      (utf8DecodeAux fuel t).map (fun cs => c :: cs) := by
  have hcons : ∃ b bs, utf8EncodeChar c ++ t = b :: bs := by
    cases he : utf8EncodeChar c with
    | nil => exact absurd he (utf8EncodeChar_ne_nil c)
    | cons b bs => exact ⟨b, bs ++ t, by simp [he]⟩
  obtain ⟨b, bs, hbs⟩ := hcons
  rw [hbs, utf8DecodeAux, ← hbs, utf8DecodeStep_utf8EncodeChar]
  simp only [Char.ofNat_toNat]

theorem utf8Encode_length_ge (cs : List Char) : cs.length ≤ (utf8Encode cs).length := by
  induction cs with
  | nil => simp [utf8Encode]
  | cons c cs ih =>
    rw [utf8Encode]
    have h1 : 1 ≤ (utf8EncodeChar c).length := by
      cases he : utf8EncodeChar c with
      | nil => exact absurd he (utf8EncodeChar_ne_nil c)
      | cons b bs => simp
    simp only [List.length_append, List.length_cons]
    omega

theorem utf8DecodeAux_utf8Encode (cs : List Char) (fuel : Nat) (h : cs.length ≤ fuel) :
    utf8DecodeAux fuel (utf8Encode cs) = some cs := by
  induction cs generalizing fuel with
  | nil =>
    cases fuel <;> rfl
  | cons c cs ih =>
    obtain ⟨f, rfl⟩ : ∃ f, fuel = f + 1 := ⟨fuel - 1, by simp at h; omega⟩
    rw [utf8Encode, utf8DecodeAux_utf8EncodeChar, ih f (by simp at h; omega)]
    rfl

theorem utf8Decode_utf8Encode (cs : List Char) : utf8Decode (utf8Encode cs) = some cs :=
  utf8DecodeAux_utf8Encode cs _ (utf8Encode_length_ge cs)

theorem cborReadHeader_cborHeader (major n : Nat) (rest : List Nat)
    (h : n < 18446744073709551616) :
    cborReadHeader (cborHeader major n ++ rest) = some (major, n, rest) := by
  unfold cborHeader
  by_cases h0 : n < 24
  · have d1 : (major * 32 + n) / 32 = major := by omega
    have d2 : (major * 32 + n) % 32 = n := by omega
    simp only [if_pos h0, List.cons_append, List.nil_append, cborReadHeader, d1, d2, if_pos h0]
  · by_cases h1 : n < 256
    · have d1 : (major * 32 + 24) / 32 = major := by omega
      have d2 : (major * 32 + 24) % 32 = 24 := by omega
      simp only [if_neg h0, if_pos h1, List.cons_append, List.nil_append, cborReadHeader,
        d1, d2]
      norm_num
    · by_cases h2 : n < 65536
      · have d1 : (major * 32 + 25) / 32 = major := by omega
        have d2 : (major * 32 + 25) % 32 = 25 := by omega
        simp only [if_neg h0, if_neg h1, if_pos h2, List.cons_append, List.nil_append,
          cborReadHeader, d1, d2]
        norm_num
        omega
      · by_cases h3 : n < 4294967296
        · have d1 : (major * 32 + 26) / 32 = major := by omega
          have d2 : (major * 32 + 26) % 32 = 26 := by omega
          simp only [if_neg h0, if_neg h1, if_neg h2, if_pos h3, List.cons_append,
            List.nil_append, cborReadHeader, d1, d2]
          norm_num
          omega
        · have d1 : (major * 32 + 27) / 32 = major := by omega
          have d2 : (major * 32 + 27) % 32 = 27 := by omega
          simp only [if_neg h0, if_neg h1, if_neg h2, if_neg h3, List.cons_append,
            List.nil_append, cborReadHeader, d1, d2]
          norm_num
          omega

theorem cborDecodeString_cborEncodeString (s : String) (rest : List Nat)
    (h : stringWireOk s) :
    cborDecodeString (cborEncodeString s ++ rest) = some (s, rest) := by
  unfold stringWireOk at h
  unfold cborEncodeString cborDecodeString
  rw [List.append_assoc, cborReadHeader_cborHeader _ _ _ h]
  have hlen : (utf8Encode s.data).length ≤ (utf8Encode s.data ++ rest).length := by
    simp
  dsimp only
  rw [if_pos rfl, if_pos hlen, List.take_left, List.drop_left, utf8Decode_utf8Encode]

theorem decodeSession_encodeSession (s : Session) (rest : List Nat)
    (h : stringWireOk s.token) :
    decodeSession (encodeSession s ++ rest) = some (s, rest) := by
  show decodeSession (161 :: 0 :: (cborEncodeString s.token ++ rest)) = some (s, rest)
  rw [decodeSession, cborDecodeString_cborEncodeString _ _ h]

theorem decodeResponseError_encodeResponseError (e : ResponseError) (rest : List Nat) :
    decodeResponseError (encodeResponseError e ++ rest) = some (e, rest) := by
  cases e <;> rfl

theorem decodeResultSession_encodeResultSession (r : Except ResponseError Session)
    (rest : List Nat) (h : ∀ s, r = .ok s → stringWireOk s.token) :
    decodeResultSession (encodeResultSession r ++ rest) = some (r, rest) := by
  cases r with
  | ok s =>
    show decodeResultSession (161 :: 0 :: (encodeSession s ++ rest)) = _
    rw [decodeResultSession, decodeSession_encodeSession s rest (h s rfl)]
    rfl
  | error e =>
    show decodeResultSession (161 :: 1 :: (encodeResponseError e ++ rest)) = _
    rw [decodeResultSession, decodeResponseError_encodeResponseError]
    rfl

theorem decodeResultUnit_encodeResultUnit (r : Except ResponseError Unit)
    (rest : List Nat) :
    decodeResultUnit (encodeResultUnit r ++ rest) = some (r, rest) := by
  cases r with
  | ok u => cases u; rfl
  | error e =>
    show decodeResultUnit (161 :: 1 :: (encodeResponseError e ++ rest)) = _
    rw [decodeResultUnit, decodeResponseError_encodeResponseError]
    rfl

theorem decodeResponseAux_encodeResponse (r : Response) (rest : List Nat)
    (h : r.wireOk) :
    decodeResponseAux (encodeResponse r ++ rest) = some (r, rest) := by
  cases r with
  | login x =>
    show decodeResponseAux (161 :: 0 :: (encodeResultSession x ++ rest)) = _
    rw [decodeResponseAux, decodeResultSession_encodeResultSession x rest]
    · rfl
    · intro s hs
      subst hs
      exact h
  | logout x =>
    show decodeResponseAux (161 :: 1 :: (encodeResultUnit x ++ rest)) = _
    rw [decodeResponseAux, decodeResultUnit_encodeResultUnit]
    rfl

/-! ## The claims -/

/-- C1: a credentials login returns `Err(WrongUsernamePassword)` if and only
if the username is empty, the password is empty, or the two are not equal —
for every collaborator environment, so the rejection is independent of the
collaborators and of the non-empty field's value. -/
theorem C1_credentials_rejected_iff (env : Collab) (username password : String) :
    (WebSocket.handle_request_login_credentials env username password).fst =
        Except.error ResponseError.wrongUsernamePassword ↔
      (username = "" ∨ password = "" ∨ username ≠ password) := by
  unfold WebSocket.handle_request_login_credentials
  split
  · next hc =>
    simp only [true_iff]
    revert hc
    simp [String.isEmpty_iff]
    tauto
  · next hc =>
    constructor
    · intro hr
      exfalso
      revert hr
      cases htok : env.tokenCreate username with
      | error e =>
        simp [htok]
        cases e
        simp [tokenErrorToResponseError]
      | ok tok =>
        cases hst : env.createSession tok with
        | error e => simp [htok, hst]
        | ok s => simp [htok, hst]
    · intro hp
      exfalso
      revert hc
      simp [String.isEmpty_iff]
      tauto

/-- C2: when username equals password, both non-empty, and the Token Service
issues token `t` for that username and the store's `CreateSession t` returns
session `s`, the credentials handler returns `Ok s`, having called exactly
token issuance for the username followed by `CreateSession` with the fresh
token. -/
theorem C2_credentials_success (env : Collab) (username password t : String) (s : Session)
    (hu : username ≠ "") (hp : password ≠ "") (heq : username = password)
    (htok : env.tokenCreate username = .ok t)
    (hst : env.createSession t = .ok s) :
    WebSocket.handle_request_login_credentials env username password =
      (.ok s, [.tokenCreate username, .createSession t]) := by
  unfold WebSocket.handle_request_login_credentials
  have hcond : ¬ (username.isEmpty || password.isEmpty || decide (username ≠ password)) = true := by
    simp [String.isEmpty_iff]
    tauto
  rw [if_neg hcond, htok]
  dsimp only
  rw [hst]

/-- C2 witness: a concrete matching non-empty credential pair under the
working environment. -/
theorem C2_credentials_success_witness :
    WebSocket.handle_request_login_credentials envOk "alice" "alice" =
      (.ok ⟨"tok-alice"⟩, [.tokenCreate "alice", .createSession "tok-alice"]) :=
  C2_credentials_success envOk "alice" "alice" "tok-alice" ⟨"tok-alice"⟩
    (by decide) (by decide) rfl (by decide) (by decide)

/-- C5: for a token-renewal request whose token the Token Service renews to
`t`, a failing `UpdateSession` call (for any store error) yields
`Response::Login(Err(Database))`, and a successful one yields
`Response::Login(Ok(updated))` — with the `UpdateSession` call carrying
exactly the request session's token as old token and `t` as new token. -/
theorem C5_token_renewal (env : Collab) (s : Session) (t : String)
    (hver : env.tokenVerify s.token = .ok t) :
    (∀ e, env.updateSession s.token t = .error e →
      WebSocket.dispatch env (.login (.session s)) =
        (.login (.error .database),
          [.tokenVerify s.token, .updateSession s.token t])) ∧
    (∀ s2, env.updateSession s.token t = .ok s2 →
      WebSocket.dispatch env (.login (.session s)) =
        (.login (.ok s2),
          [.tokenVerify s.token, .updateSession s.token t])) := by
  unfold WebSocket.dispatch
  dsimp only
  unfold WebSocket.handle_request_login_token
  rw [hver]
  dsimp only
  constructor
  · intro e hupd
    rw [hupd]
  · intro s2 hupd
    rw [hupd]

/-- C5 witness: a concrete renewal whose `UpdateSession` succeeds under the
working environment. -/
theorem C5_token_renewal_witness :
    WebSocket.dispatch envOk (.login (.session ⟨"tk"⟩)) =
      (.login (.ok ⟨"tk-renewed"⟩),
        [.tokenVerify "tk", .updateSession "tk" "tk-renewed"]) :=
  (C5_token_renewal envOk ⟨"tk"⟩ "tk-renewed" (by decide)).2 ⟨"tk-renewed"⟩ (by decide)

/-- C6: a logout request always issues `DeleteSession` with the session's
token; a successful store call yields `Response::Logout(Ok(()))` and a
failing one yields `Response::Logout(Err(Database))`. -/
theorem C6_logout (env : Collab) (s : Session) :
    (WebSocket.handle_request_logout env s).snd = [.deleteSession s.token] ∧
    (∀ u, env.deleteSession s.token = .ok u →
      WebSocket.dispatch env (.logout s) =
        (.logout (.ok ()), [.deleteSession s.token])) ∧
    (∀ e, env.deleteSession s.token = .error e →
      WebSocket.dispatch env (.logout s) =
        (.logout (.error .database), [.deleteSession s.token])) := by
  unfold WebSocket.dispatch
  dsimp only
  unfold WebSocket.handle_request_logout
  refine ⟨?_, ?_, ?_⟩
  · cases hdel : env.deleteSession s.token <;> rfl
  · intro u hdel
    rw [hdel]
  · intro e hdel
    rw [hdel]

/-- C8: a credentials login that is rejected locally sends nothing to any
collaborator at all, and one whose token issuance fails sends nothing to the
Session Store: the error is raised before any `CreateSession` call. -/
theorem C8_no_store_call_on_early_error (env : Collab) (username password : String) :
    (username = "" ∨ password = "" ∨ username ≠ password →
      (WebSocket.handle_request_login_credentials env username password).snd = []) ∧
    (∀ e, env.tokenCreate username = .error e →
      ((WebSocket.handle_request_login_credentials env username password).snd.filter
          CollabCall.isStoreCall) = []) := by
  unfold WebSocket.handle_request_login_credentials
  constructor
  · intro hp
    have hcond : (username.isEmpty || password.isEmpty || decide (username ≠ password)) = true := by
      simp [String.isEmpty_iff]
      tauto
    rw [if_pos hcond]
  · intro e htok
    split
    · rfl
    · rw [htok]
      rfl

/-- C8 witness: concrete rejected credentials, and a concrete issuance
failure under the token-rejecting environment. -/
theorem C8_no_store_call_on_early_error_witness :
    (WebSocket.handle_request_login_credentials envOk "alice" "bob").snd = [] ∧
    ((WebSocket.handle_request_login_credentials envTokenDown "carol" "carol").snd.filter
        CollabCall.isStoreCall) = [] :=
  ⟨(C8_no_store_call_on_early_error envOk "alice" "bob").1 (by simp),
   (C8_no_store_call_on_early_error envTokenDown "carol" "carol").2 .invalid (by decide)⟩

/-- C9: the handler validates nothing locally on logout and token-renewal
requests: whatever the session token is (the empty string included), logout
issues exactly `DeleteSession` with that token, and token renewal's first
collaborator call is token verification of exactly that token, before any
store call. -/
theorem C9_tokens_forwarded_verbatim (env : Collab) (s : Session) :
    (WebSocket.handle_request_logout env s).snd = [.deleteSession s.token] ∧
    (WebSocket.handle_request_login_token env s).snd.head? =
      some (.tokenVerify s.token) := by
  constructor
  · unfold WebSocket.handle_request_logout
    cases hdel : env.deleteSession s.token <;> rfl
  · unfold WebSocket.handle_request_login_token
    cases hver : env.tokenVerify s.token with
    | error e => rfl
    | ok t =>
      dsimp only
      cases hupd : env.updateSession s.token t <;> rfl

theorem dispatch_outerVariant (env : Collab) (request : Request) :
    outerVariantMatches request (WebSocket.dispatch env request).fst := by
  cases request with
  | login l =>
    cases l with
    | credentials u p =>
      rcases he : WebSocket.handle_request_login_credentials env u p with ⟨r, calls⟩
      simp [WebSocket.dispatch, he, outerVariantMatches]
    | session s =>
      rcases he : WebSocket.handle_request_login_token env s with ⟨r, calls⟩
      simp [WebSocket.dispatch, he, outerVariantMatches]
  | logout s =>
    rcases he : WebSocket.handle_request_logout env s with ⟨r, calls⟩
    simp [WebSocket.dispatch, he, outerVariantMatches]

/-- C3: an inbound binary message that decodes to a request makes the
handler send exactly one response, leave the connection running, and the
response's outer variant (Login vs Logout) matches the request's outer
variant. -/
theorem C3_exactly_one_matching_response (env : Collab) (data : List Nat) (request : Request)
    (hdec : decodeRequest data = some request) :
    (WebSocket.handle env (.binary data)).fst.length = 1 ∧
    (WebSocket.handle env (.binary data)).snd.snd = false ∧
    ∀ response ∈ (WebSocket.handle env (.binary data)).fst,
      outerVariantMatches request response := by
  unfold WebSocket.handle WebSocket.handle_request
  dsimp only
  rw [hdec]
  dsimp only
  refine ⟨rfl, rfl, ?_⟩
  intro response hresp
  rcases hd : WebSocket.dispatch env request with ⟨resp, calls⟩
  rw [hd] at hresp
  simp at hresp
  subst hresp
  have := dispatch_outerVariant env request
  rw [hd] at this
  exact this

/-- C3 witness: a concrete well-formed logout request yields one matching
response. -/
theorem C3_exactly_one_matching_response_witness :
    (WebSocket.handle envOk (.binary (encodeRequest (.logout ⟨"tk"⟩)))).fst.length = 1 ∧
    (WebSocket.handle envOk (.binary (encodeRequest (.logout ⟨"tk"⟩)))).snd.snd = false ∧
    ∀ response ∈ (WebSocket.handle envOk (.binary (encodeRequest (.logout ⟨"tk"⟩)))).fst,
      outerVariantMatches (.logout ⟨"tk"⟩) response :=
  C3_exactly_one_matching_response envOk (encodeRequest (.logout ⟨"tk"⟩)) (.logout ⟨"tk"⟩)
    (by decide)

/-- C4: an inbound binary frame that fails to decode, and any frame kind
other than binary or close, produce zero outbound responses, do not stop the
connection, and have no effect at all on the processing of the rest of the
inbound stream. -/
theorem C4_malformed_ignored (env : Collab) (data : List Nat)
    (hbad : decodeRequest data = none) :
    WebSocket.handle env (.binary data) = ([], [], false) ∧
    WebSocket.handle env .other = ([], [], false) ∧
    (∀ rest, WebSocket.run env (.binary data :: rest) = WebSocket.run env rest) ∧
    (∀ rest, WebSocket.run env (.other :: rest) = WebSocket.run env rest) := by
  have h1 : WebSocket.handle env (.binary data) = ([], [], false) := by
    unfold WebSocket.handle WebSocket.handle_request
    dsimp only
    rw [hbad]
  refine ⟨h1, rfl, ?_, ?_⟩
  · intro rest
    rw [WebSocket.run, h1]
    simp
  · intro rest
    rw [WebSocket.run]
    simp [WebSocket.handle]

/-- C4 witness: the one-byte frame 0xFF is malformed; it is dropped, the
connection stays open, and a following well-formed request is handled as if
the malformed frame had never arrived. -/
theorem C4_malformed_ignored_witness :
    WebSocket.handle envOk (.binary [255]) = ([], [], false) ∧
    WebSocket.handle envOk .other = ([], [], false) ∧
    (∀ rest, WebSocket.run envOk (.binary [255] :: rest) = WebSocket.run envOk rest) ∧
    (∀ rest, WebSocket.run envOk (.other :: rest) = WebSocket.run envOk rest) :=
  C4_malformed_ignored envOk [255] (by decide)

/-- C7: decoding the packed bytes produced by encoding any response yields
that response again (for every response whose strings fit the 8-byte CBOR
length header, which covers every machine-representable response). -/
theorem C7_response_roundtrip (r : Response) (h : r.wireOk) :
    decodeResponse (encodeResponse r) = some r := by
  unfold decodeResponse
  have haux := decodeResponseAux_encodeResponse r [] h
  rw [List.append_nil] at haux
  rw [haux]

/-- C7 witness: a concrete successful login response round-trips. -/
theorem C7_response_roundtrip_witness :
    decodeResponse (encodeResponse (.login (.ok ⟨"tok"⟩))) = some (.login (.ok ⟨"tok"⟩)) :=
  C7_response_roundtrip (.login (.ok ⟨"tok"⟩)) (by decide)

theorem handle_not_stopped (env : Collab) (msg : InMessage) (h : msg ≠ .close) :
    (WebSocket.handle env msg).snd.snd = false := by
  cases msg with
  | binary data =>
    unfold WebSocket.handle
    dsimp only
    cases hr : WebSocket.handle_request env data with
    | none => rfl
    | some p => cases p with | mk resp calls => rfl
  | close => exact absurd rfl h
  | other => rfl

/-- C10: the handler holds no state across requests: as long as the
connection has not been closed, the responses produced for a trailing
message are exactly those it produces in isolation, whatever inbound history
preceded it (with the same collaborator replies). -/
theorem C10_history_independent (env : Collab) (hist : List InMessage) (m : InMessage)
    (hopen : InMessage.close ∉ hist) :
    WebSocket.run env (hist ++ [m]) =
      WebSocket.run env hist ++ WebSocket.run env [m] := by
  induction hist with
  | nil => simp [WebSocket.run]
  | cons h hs ih =>
    have hne : h ≠ .close := by
      intro hc
      exact hopen (by simp [hc])
    have hmem : InMessage.close ∉ hs := by
      intro hc
      exact hopen (by simp [hc])
    rw [List.cons_append, WebSocket.run]
    rcases hh : WebSocket.handle env h with ⟨rs, pr⟩
    rcases pr with ⟨cs, stop⟩
    have hstop : stop = false := by
      have hf := handle_not_stopped env h hne
      rw [hh] at hf
      exact hf
    subst hstop
    dsimp only
    rw [if_neg (by simp), ih hmem]
    conv_rhs => rw [WebSocket.run, hh]
    dsimp only
    rw [if_neg (by simp), List.append_assoc]

/-- C10 witness: after a history of one well-formed logout request, a
renewal request gets exactly the response it gets in isolation. -/
theorem C10_history_independent_witness :
    WebSocket.run envOk
        ([.binary (encodeRequest (.logout ⟨"a"⟩))] ++ [.binary (encodeRequest (.login (.session ⟨"b"⟩)))]) =
      WebSocket.run envOk [.binary (encodeRequest (.logout ⟨"a"⟩))] ++
        WebSocket.run envOk [.binary (encodeRequest (.login (.session ⟨"b"⟩)))] :=
  C10_history_independent envOk [.binary (encodeRequest (.logout ⟨"a"⟩))]
    (.binary (encodeRequest (.login (.session ⟨"b"⟩)))) (by decide)
